import Mathlib

/-
  Verification of the MPTCP CMT/RPv2 congestion-control module
  (net/mptcp/mptcp_cmtrpv2.c) against its natural-language design
  specification.

  The embedding mirrors the C source: unsigned 32-bit and 64-bit machine
  arithmetic is modelled on Nat with explicit reductions modulo 2^32 and
  2^64 exactly where the C expressions wrap, and the signed 32-bit global
  accumulator snd_buffer is modelled as an Int together with the C
  conversion rules between int and the unsigned types (the comparison
  snd_buffer >= mss_cache and the compound assignments convert the int
  operand to the unsigned type).  Stateful C functions become pure
  functions returning the updated state.
-/

/-- Number of values of an unsigned 32-bit integer, 2^32. -/
def U32 : Nat := 4294967296

/-- Number of values of an unsigned 64-bit integer, 2^64. -/
def U64 : Nat := 18446744073709551616

/-- Module parameter rpv2_scale (fixed-point shift), default 32. -/
def rpv2_scale : Nat := 32

/-- Module parameter dup_acks_rtx (duplicate-ACK threshold), default 3. -/
def dup_acks_rtx : Nat := 3

/-- The fields of struct tcp_sock that the module reads and writes, plus
the eligibility flag mptcp_sk_can_send of the owning socket.  All numeric
fields are u32 in the kernel; the machine width is enforced at each
operation of the embedding, mirroring the C arithmetic. -/
structure TcpSock where
  snd_cwnd : Nat
  snd_ssthresh : Nat
  srtt_us : Nat
  mss_cache : Nat
  sacked_out : Nat
  snd_cwnd_cnt : Nat
  snd_cwnd_clamp : Nat
  can_send : Bool
deriving DecidableEq, Repr

/-- Embeds mptcp_cmtrpv2_sk_can_send: the subflow is eligible when
mptcp_sk_can_send holds and srtt_us is nonzero. -/
def mptcp_cmtrpv2_sk_can_send (tp : TcpSock) : Bool :=
  tp.can_send && tp.srtt_us != 0

/-- Number of eligible subflows of a connection (used to state the
single-eligible-subflow scenario of the spec). -/
def countEligible (subs : List TcpSock) : Nat :=
  (subs.filter (fun s => mptcp_cmtrpv2_sk_can_send s)).length

/-- Embeds mptcp_cmtrpv2_scale: (u64) val << scale, a u64 result. -/
def mptcp_cmtrpv2_scale (val scale : Nat) : Nat :=
  (val <<< scale) % U64

/-- Unsigned 32-bit wrapping subtraction (C u32 arithmetic a - b). -/
def sub32 (a b : Nat) : Nat :=
  (a % U32 + (U32 - b % U32)) % U32

/-- Conversion of a C int value to u32 (two's complement reinterpretation,
i.e. the value modulo 2^32). -/
def u32ofInt (i : Int) : Nat :=
  (i % (U32 : Int)).toNat

/-- Conversion of a u32 bit pattern to a C int value (two's complement
reinterpretation, the gcc-defined behaviour of the int conversion). -/
def s32 (n : Nat) : Int :=
  if n % U32 < 2147483648 then ((n % U32 : Nat) : Int)
  else ((n % U32 : Nat) : Int) - (U32 : Int)

/-- Embeds the C compound assignment snd_buffer += increase, where
snd_buffer is int and increase is u64: the sum is formed in u64 and the
result converted back to int, i.e. taken modulo 2^32 and reinterpreted as
a signed value. -/
def accAdd (snd_buffer : Int) (inc : Nat) : Int :=
  s32 (u32ofInt snd_buffer + inc)

/-- Embeds the bandwidth-aggregation loop shared by
mptcp_cmtrpv2_calc_increase_ratio and mptcp_cmtrpv2_calc_ssthresh:
total_bandwidth += div64_u64(mptcp_cmtrpv2_scale(snd_cwnd, rpv2_scale),
srtt_us) over all subflows passing mptcp_cmtrpv2_sk_can_send, in u64
arithmetic. -/
def total_bw (subs : List TcpSock) : Nat :=
  subs.foldl
    (fun acc tp =>
      if mptcp_cmtrpv2_sk_can_send tp then
        (acc + mptcp_cmtrpv2_scale tp.snd_cwnd rpv2_scale / tp.srtt_us) % U64
      else acc)
    0

/-- Embeds mptcp_cmtrpv2_calc_increase_ratio.  The tp argument is the
socket the function is invoked on (the meta socket when called from slow
start, the subflow itself when called from congestion avoidance); prior is
the increase ratio currently stored at the meta socket; the returned value
is the ratio stored after the call.  When factor is 0 the body is skipped
and the stored ratio is unchanged.  The product snd_cwnd * factor is u32
arithmetic; DIV_ROUND_UP runs in u64. -/
def mptcp_cmtrpv2_calc_increase (tp : TcpSock) (subs : List TcpSock)
    (factor prior : Nat) : Nat :=
  if factor = 0 then prior
  else
    let tb := total_bw subs
    let d0 := ((tp.srtt_us * tb) % U64) >>> rpv2_scale
    let d := if d0 = 0 then 1 else d0
    (((tp.snd_cwnd * factor) % U32 + d - 1) % U64) / d

/-- The increase-ratio formula as the specification states it (section
4.2): increase = ceil(cwnd * F / denominator) by round-up integer
division, denominator = (srtt * total_bandwidth) >> SCALE, replaced by 1
when zero.  Written without machine wrap-around, for comparison with the
code-level function. -/
def increaseSpec (tp : TcpSock) (subs : List TcpSock) (F : Nat) : Nat :=
  let tb := total_bw subs
  let d0 := (tp.srtt_us * tb) >>> rpv2_scale
  let d := if d0 = 0 then 1 else d0
  (tp.snd_cwnd * F + d - 1) / d

/-- Embeds mptcp_cmtrpv2_calc_ssthresh (the multipath branch; the mpcb
null branch is the non-multipath delegation handled in
mptcp_cmtrpv2_ssthresh).  decrease is computed in u64,
DIV_ROUND_UP(snd_cwnd, 2) in u32. -/
def mptcp_cmtrpv2_calc_ssthresh (tp : TcpSock) (subs : List TcpSock) : Nat :=
  let tb := total_bw subs
  let d0 := (((((tb * tp.srtt_us) % U64) >>> rpv2_scale) + 1) % U64) / 2
  let cw2 := ((tp.snd_cwnd + 1) % U32) / 2
  let decrease := if cw2 > d0 then cw2 else d0
  if decrease < tp.snd_cwnd then tp.snd_cwnd - decrease else 1

/-- Embeds mptcp_cmtrpv2_fast_rtx: if sacked_out is at least
dup_acks_rtx, snd_cwnd is set to the given ssthresh. -/
def mptcp_cmtrpv2_fast_rtx (tp : TcpSock) (ssthresh : Nat) : TcpSock :=
  if dup_acks_rtx ≤ tp.sacked_out then { tp with snd_cwnd := ssthresh }
  else tp

/-- Modelled from the spec: the conventional single-path ssthresh rule
(tcp_reno_ssthresh), an external collaborator whose source is not under
src/ — standard Reno, max(cwnd / 2, 2). -/
def tcp_reno_ssthresh (tp : TcpSock) : Nat :=
  max (tp.snd_cwnd >>> 1) 2

/-- Modelled from the spec: the conventional single-path slow-start step
(tcp_slow_start), an external collaborator whose source is not under
src/ — cwnd grows by the acked count up to ssthresh, bounded by the
clamp, returning the residual acked count. -/
def tcp_slow_start (tp : TcpSock) (acked : Nat) : TcpSock × Nat :=
  let cwnd := min ((tp.snd_cwnd + acked) % U32) tp.snd_ssthresh
  let acked' := sub32 acked (sub32 cwnd tp.snd_cwnd)
  ({ tp with snd_cwnd := min cwnd tp.snd_cwnd_clamp }, acked')

/-- Modelled from the spec: the conventional single-path additive-increase
step (tcp_cong_avoid_ai), an external collaborator whose source is not
under src/ — one segment of growth per window of acks, bounded by the
clamp. -/
def tcp_cong_avoid_ai (tp : TcpSock) (w acked : Nat) : TcpSock :=
  let tp1 :=
    if w ≤ tp.snd_cwnd_cnt then
      { tp with snd_cwnd_cnt := 0, snd_cwnd := (tp.snd_cwnd + 1) % U32 }
    else tp
  let cnt := (tp1.snd_cwnd_cnt + acked) % U32
  let tp2 :=
    if w ≤ cnt ∧ w ≠ 0 then
      let delta := cnt / w
      { tp1 with snd_cwnd_cnt := cnt - delta * w,
                 snd_cwnd := (tp1.snd_cwnd + delta) % U32 }
    else { tp1 with snd_cwnd_cnt := cnt }
  { tp2 with snd_cwnd := min tp2.snd_cwnd tp2.snd_cwnd_clamp }

/-- Modelled from the spec: the conventional single-path congestion
avoidance (tcp_reno_cong_avoid), an external collaborator whose source is
not under src/ — skip when not cwnd-limited, slow start below ssthresh,
additive increase above. -/
def tcp_reno_cong_avoid (cwnd_limited : Bool) (tp : TcpSock) (acked : Nat) :
    TcpSock :=
  if !cwnd_limited then tp
  else if tp.snd_cwnd < tp.snd_ssthresh then
    let r := tcp_slow_start tp acked
    if r.2 = 0 then r.1 else tcp_cong_avoid_ai r.1 r.1.snd_cwnd r.2
  else tcp_cong_avoid_ai tp tp.snd_cwnd acked

/-- Result of a call to the slow-start engine: the residual acked count
returned by mptcp_cmtrpv2_slow_start, the updated subflow, the increase
ratio now stored at the meta socket, and the updated global snd_buffer. -/
structure SSResult where
  acked : Nat
  tp : TcpSock
  increase : Nat
  snd_buffer : Int
deriving DecidableEq, Repr

/-- Embeds mptcp_cmtrpv2_slow_start.  tp is the acking subflow, meta the
socket tp.meta_sk on which the ratio calculator is invoked, subs the
subflow list of the connection, prior the increase ratio stored before the
call and snd_buffer the global accumulator before the call.  The local
cwnd computation, the u32 wrap of snd_cwnd++, and the int/u32 conversions
around snd_buffer follow the C source. -/
def mptcp_cmtrpv2_slow_start (tp meta : TcpSock) (subs : List TcpSock)
    (acked prior : Nat) (snd_buffer : Int) : SSResult :=
  let cwnd0 := (tp.snd_cwnd + acked) % U32
  let cwnd := if cwnd0 > tp.snd_ssthresh then (tp.snd_ssthresh + 1) % U32
              else cwnd0
  let factor := min ((acked * tp.mss_cache) % U32) tp.mss_cache
  let increase := mptcp_cmtrpv2_calc_increase meta subs factor prior
  let acked' := sub32 acked (sub32 cwnd tp.snd_cwnd)
  let bufN := u32ofInt (accAdd snd_buffer increase)
  if tp.mss_cache ≤ bufN then
    { acked := acked',
      tp := { tp with snd_cwnd := (tp.snd_cwnd + 1) % U32 },
      increase := increase,
      snd_buffer := s32 (bufN - tp.mss_cache) }
  else
    { acked := acked', tp := tp, increase := increase, snd_buffer := s32 bufN }

/-- Result of a call to mptcp_cmtrpv2_cong_avoid: updated subflow, stored
increase ratio, and global snd_buffer. -/
structure CAResult where
  tp : TcpSock
  increase : Nat
  snd_buffer : Int
deriving DecidableEq, Repr

/-- Embeds mptcp_cmtrpv2_cong_avoid.  isMptcp is the mptcp(tp) capability
test, cwnd_limited the tcp_is_cwnd_limited(sk) collaborator answer.  On a
non-multipath socket the call delegates to tcp_reno_cong_avoid.  On a
multipath socket: return with no mutation when not cwnd-limited; run the
slow-start engine when snd_cwnd <= snd_ssthresh; otherwise refresh the
increase ratio with factor mss_cache on the subflow itself, add it to the
global accumulator and pace growth with snd_cwnd_cnt, bounding snd_cwnd
by snd_cwnd_clamp. -/
def mptcp_cmtrpv2_cong_avoid (isMptcp cwnd_limited : Bool) (tp meta : TcpSock)
    (subs : List TcpSock) (acked prior : Nat) (snd_buffer : Int) : CAResult :=
  if !isMptcp then
    { tp := tcp_reno_cong_avoid cwnd_limited tp acked,
      increase := prior, snd_buffer := snd_buffer }
  else if !cwnd_limited then
    { tp := tp, increase := prior, snd_buffer := snd_buffer }
  else if tp.snd_cwnd ≤ tp.snd_ssthresh then
    let r := mptcp_cmtrpv2_slow_start tp meta subs acked prior snd_buffer
    { tp := r.tp, increase := r.increase, snd_buffer := r.snd_buffer }
  else
    let increase := mptcp_cmtrpv2_calc_increase tp subs tp.mss_cache prior
    let buf1 := accAdd snd_buffer increase
    let bufN := u32ofInt buf1
    if tp.snd_cwnd ≤ tp.snd_cwnd_cnt then
      if tp.mss_cache ≤ bufN then
        let tp1 := if tp.snd_cwnd < tp.snd_cwnd_clamp then
                     { tp with snd_cwnd := (tp.snd_cwnd + 1) % U32 }
                   else tp
        { tp := { tp1 with snd_cwnd_cnt := 0 },
          increase := increase,
          snd_buffer := s32 (bufN - tp.mss_cache) }
      else
        { tp := tp, increase := increase, snd_buffer := buf1 }
    else
      { tp := { tp with snd_cwnd_cnt := (tp.snd_cwnd_cnt + 1) % U32 },
        increase := increase, snd_buffer := buf1 }

/-- Embeds mptcp_cmtrpv2_ssthresh.  On a non-multipath socket it returns
tcp_reno_ssthresh and touches nothing; on a multipath socket it computes
the new ssthresh, runs the fast-retransmit snap, and returns the pair
(new ssthresh, updated subflow). -/
def mptcp_cmtrpv2_ssthresh (isMptcp : Bool) (tp : TcpSock)
    (subs : List TcpSock) : Nat × TcpSock :=
  if !isMptcp then (tcp_reno_ssthresh tp, tp)
  else
    let ssthresh := mptcp_cmtrpv2_calc_ssthresh tp subs
    (ssthresh, mptcp_cmtrpv2_fast_rtx tp ssthresh)

/-- A multipath connection: its meta socket, its subflows, and the
increase ratio stored in its meta-socket private area. -/
structure Conn where
  meta : TcpSock
  subs : List TcpSock
  increase : Nat
deriving DecidableEq, Repr

/-- The process state relevant to accumulator sharing: the single global
static int snd_buffer of the module, and two distinct connections. -/
structure World where
  snd_buffer : Int
  connA : Conn
  connB : Conn
deriving DecidableEq, Repr

/-- A slow-start growth call on a subflow tp of connection A of the
world: per the source, it reads and writes the one global snd_buffer and
the connection-A increase ratio. -/
def slowStartOnA (w : World) (tp : TcpSock) (acked : Nat) : World :=
  let r := mptcp_cmtrpv2_slow_start tp w.connA.meta w.connA.subs acked
             w.connA.increase w.snd_buffer
  { w with snd_buffer := r.snd_buffer,
           connA := { w.connA with increase := r.increase } }

/-- The accumulator value a connection observes.  In the source there is
only the one global static snd_buffer, so every connection observes the
same cell regardless of which connection it is. -/
def observedAccumulator (w : World) (_c : Conn) : Int :=
  w.snd_buffer

/-
  Helper lemmas about the machine arithmetic.
-/

lemma shiftRight_scale_lt {x : Nat} (hx : x < U64) : x >>> rpv2_scale < U32 := by
  have h : x >>> rpv2_scale = x / 2 ^ 32 := by
    simp [Nat.shiftRight_eq_div_pow, rpv2_scale]
  rw [h, Nat.div_lt_iff_lt_mul (by norm_num)]
  have h2 : U32 * 2 ^ 32 = U64 := by norm_num [U32, U64]
  omega

lemma u32ofInt_natCast (b : Nat) : u32ofInt (b : Int) = b % U32 := by
  unfold u32ofInt
  rw [← Int.natCast_mod]
  exact Int.toNat_natCast _

lemma s32_eq_of_lt (n : Nat) (h : n < 2147483648) : s32 n = (n : Int) := by
  have hm : n % U32 = n := Nat.mod_eq_of_lt (by unfold U32; omega)
  unfold s32
  rw [hm]
  simp [h]

lemma accAdd_natCast (b inc : Nat) (h : b + inc < 2147483648) :
    accAdd (b : Int) inc = ((b + inc : Nat) : Int) := by
  unfold accAdd
  rw [u32ofInt_natCast, Nat.mod_eq_of_lt (show b < U32 by unfold U32; omega)]
  exact s32_eq_of_lt _ h

lemma u32ofInt_accAdd_natCast (b inc : Nat) (h : b + inc < 2147483648) :
    u32ofInt (accAdd (b : Int) inc) = b + inc := by
  rw [accAdd_natCast b inc h, u32ofInt_natCast]
  exact Nat.mod_eq_of_lt (by unfold U32; omega)

lemma calc_increase_eq (tp : TcpSock) (subs : List TcpSock) (factor prior : Nat)
    (hf : factor ≠ 0)
    (hcf : tp.snd_cwnd * factor < U32)
    (hst : tp.srtt_us * total_bw subs < U64) :
    mptcp_cmtrpv2_calc_increase tp subs factor prior
      = increaseSpec tp subs factor := by
  have h32 : U32 = 4294967296 := rfl
  have h64 : U64 = 18446744073709551616 := rfl
  have hd0 : (tp.srtt_us * total_bw subs) >>> rpv2_scale < U32 :=
    shiftRight_scale_lt hst
  simp only [mptcp_cmtrpv2_calc_increase, increaseSpec, if_neg hf,
    Nat.mod_eq_of_lt hst, Nat.mod_eq_of_lt hcf]
  set p := tp.snd_cwnd * factor with hp
  set d0 := (tp.srtt_us * total_bw subs) >>> rpv2_scale with hd0def
  by_cases h0 : d0 = 0
  · simp only [h0, if_pos]
    rw [Nat.mod_eq_of_lt (by omega)]
  · simp only [if_neg h0]
    rw [Nat.mod_eq_of_lt (by omega)]

lemma slow_start_increase_eq (tp meta : TcpSock) (subs : List TcpSock)
    (acked prior : Nat) (buf : Int) :
    (mptcp_cmtrpv2_slow_start tp meta subs acked prior buf).increase
      = mptcp_cmtrpv2_calc_increase meta subs
          (min ((acked * tp.mss_cache) % U32) tp.mss_cache) prior := by
  simp only [mptcp_cmtrpv2_slow_start]
  split <;> rfl

lemma cong_avoid_increase_eq (tp meta : TcpSock) (subs : List TcpSock)
    (acked prior : Nat) (buf : Int)
    (hstate : tp.snd_ssthresh < tp.snd_cwnd) :
    (mptcp_cmtrpv2_cong_avoid true true tp meta subs acked prior buf).increase
      = mptcp_cmtrpv2_calc_increase tp subs tp.mss_cache prior := by
  simp only [mptcp_cmtrpv2_cong_avoid, Bool.not_true, Bool.false_eq_true,
    if_false, if_neg (Nat.not_le.mpr hstate)]
  split <;> (try split) <;> rfl

/-
  Concrete states used by individual claims.
-/

/-- Subflow of connection A in the C1 interference scenario. -/
def tpC1 : TcpSock := ⟨1, 10, 1, 100, 0, 0, 100, true⟩

/-- Two-connection world for C1: connection A with one subflow, and an
unrelated connection B; the global accumulator starts at 0. -/
def wC1 : World :=
  ⟨0, ⟨⟨1, 10, 2, 100, 0, 0, 100, true⟩, [tpC1], 0⟩,
      ⟨⟨3, 12, 5, 200, 0, 0, 64, true⟩, [⟨3, 12, 5, 200, 0, 0, 64, true⟩], 7⟩⟩

/-- Multipath subflow for the C4 scenario: the only eligible subflow of
its connection, cwnd 2. -/
def tpC4 : TcpSock := ⟨2, 10, 1, 1000, 0, 0, 100, true⟩

/-- Subflow in slow-start state for the C5 scenario. -/
def tpC5 : TcpSock := ⟨1, 10, 1, 100, 0, 0, 100, true⟩

/-- Subflow with snd_cwnd at the top of the u32 range for the C8
counterexample. -/
def tpC8 : TcpSock := ⟨4294967295, 4294967295, 1, 1, 0, 0, 100, true⟩

/-- Meta socket for the C8 counterexample. -/
def metaC8 : TcpSock := ⟨1, 10, 1, 100, 0, 0, 100, true⟩

/-- Subflow for the C10 scenario (mss_cache 1). -/
def tpC10 : TcpSock := ⟨5, 10, 1, 1, 0, 0, 100, true⟩

/-- Meta socket for the C10 scenario: its snd_cwnd of 2^32 - 1 makes the
computed increase ratio 2^32 - 1. -/
def metaC10 : TcpSock := ⟨4294967295, 10, 7, 100, 0, 0, 100, true⟩

/-- Claim C1: the module keeps the fractional growth accumulator in the
process-global static snd_buffer, so a slow-start growth call on a
subflow of connection A changes the accumulator value observed by the
distinct connection B (here from 0 to 50) — the per-connection
noninterference the spec requires fails on the code. -/
theorem global_accumulator_leaks_across_connections :
    observedAccumulator wC1 wC1.connB = 0
    ∧ observedAccumulator (slowStartOnA wC1 tpC1 1) wC1.connB = 50
    ∧ observedAccumulator (slowStartOnA wC1 tpC1 1) wC1.connB
        ≠ observedAccumulator wC1 wC1.connB := by
  refine ⟨rfl, by decide, by decide⟩

/-- Claim C4 (counterexample): a multipath connection with exactly one
eligible subflow does not reproduce the conventional single-path (Reno)
ssthresh bit-for-bit: at cwnd 2 the multipath computation returns 1 while
Reno returns 2.  The code selects the Reno fallback on the mptcp(tp)
capability test, not on the eligible-subflow count. -/
theorem one_eligible_subflow_differs_from_reno :
    countEligible [tpC4] = 1
    ∧ (mptcp_cmtrpv2_ssthresh true tpC4 [tpC4]).1 = 1
    ∧ tcp_reno_ssthresh tpC4 = 2
    ∧ (mptcp_cmtrpv2_ssthresh true tpC4 [tpC4]).1 ≠ tcp_reno_ssthresh tpC4 := by
  refine ⟨by decide, by decide, by decide, by decide⟩

/-- Claim C4 (amended): the single-path fallback triggers exactly when the
connection is not in multipath mode; in that case both the ssthresh
operation and the congestion-avoidance operation delegate to the
conventional single-path algorithm and return its outputs bit-for-bit,
with no multipath state touched. -/
theorem non_multipath_delegates_to_reno (tp meta : TcpSock)
    (subs : List TcpSock) (limited : Bool) (acked prior : Nat) (buf : Int) :
    mptcp_cmtrpv2_ssthresh false tp subs = (tcp_reno_ssthresh tp, tp)
    ∧ mptcp_cmtrpv2_cong_avoid false limited tp meta subs acked prior buf
        = ⟨tcp_reno_cong_avoid limited tp acked, prior, buf⟩ :=
  ⟨rfl, rfl⟩

/-- Claim C5 (counterexample): with cwnd 1 ≤ ssthresh 10 (slow-start
state) but the connection not cwnd-limited, the dispatcher returns with
no state mutated, whereas the slow-start engine run on the same state
would raise cwnd to 2 — so the is-cwnd-limited skip also applies in the
slow-start state, contrary to the claim. -/
theorem slow_start_gated_by_cwnd_limited_cex :
    tpC5.snd_cwnd ≤ tpC5.snd_ssthresh
    ∧ mptcp_cmtrpv2_cong_avoid true false tpC5 tpC5 [tpC5] 1 0 0
        = ⟨tpC5, 0, 0⟩
    ∧ (mptcp_cmtrpv2_slow_start tpC5 tpC5 [tpC5] 1 0 0).tp.snd_cwnd = 2
    ∧ tpC5.snd_cwnd = 1 := by
  refine ⟨by decide, by decide, by decide, by decide⟩

/-- Claim C5 (amended): the is-cwnd-limited check precedes both growth
states: when the connection is not cwnd-limited the multipath
congestion-avoidance call returns with no state mutated even in the
slow-start state, and when it is cwnd-limited and cwnd ≤ ssthresh the
dispatcher runs the slow-start engine. -/
theorem cwnd_limited_gate_both_states (tp meta : TcpSock)
    (subs : List TcpSock) (acked prior : Nat) (buf : Int) :
    mptcp_cmtrpv2_cong_avoid true false tp meta subs acked prior buf
      = ⟨tp, prior, buf⟩
    ∧ (tp.snd_cwnd ≤ tp.snd_ssthresh →
        mptcp_cmtrpv2_cong_avoid true true tp meta subs acked prior buf
          = ⟨(mptcp_cmtrpv2_slow_start tp meta subs acked prior buf).tp,
             (mptcp_cmtrpv2_slow_start tp meta subs acked prior buf).increase,
             (mptcp_cmtrpv2_slow_start tp meta subs acked prior buf).snd_buffer⟩) := by
  constructor
  · rfl
  · intro h
    simp [mptcp_cmtrpv2_cong_avoid, h]

/-- Witness for the amended C5 theorem at the concrete slow-start state
tpC5: with cwnd-limited true the dispatcher output equals the slow-start
engine output. -/
theorem cwnd_limited_gate_both_states_witness :
    mptcp_cmtrpv2_cong_avoid true true tpC5 tpC5 [tpC5] 1 0 0
      = ⟨(mptcp_cmtrpv2_slow_start tpC5 tpC5 [tpC5] 1 0 0).tp,
         (mptcp_cmtrpv2_slow_start tpC5 tpC5 [tpC5] 1 0 0).increase,
         (mptcp_cmtrpv2_slow_start tpC5 tpC5 [tpC5] 1 0 0).snd_buffer⟩ :=
  (cwnd_limited_gate_both_states tpC5 tpC5 [tpC5] 1 0 0).2 (by decide)

/-- Claim C8 (counterexample): slow-start growth on a subflow whose cwnd
is 2^32 - 1 wraps snd_cwnd++ around the u32 range and computes cwnd 0,
violating the unconditional cwnd ≥ 1 invariant as stated. -/
theorem slow_start_cwnd_wraps_to_zero_cex :
    1 ≤ tpC8.snd_cwnd
    ∧ (mptcp_cmtrpv2_slow_start tpC8 metaC8 [] 1 0 0).tp.snd_cwnd = 0 := by
  refine ⟨by decide, by decide⟩

/-- Claim C10: the global accumulator is a signed 32-bit int while the
increase ratio is u64, so the compound assignment adds modulo 2^32 with a
signed reinterpretation: adding 2^31 to accumulator 0 yields -2^31, and a
whole slow-start call whose freshly computed ratio is 2^32 - 1 drives the
accumulator from 0 to -2 instead of increasing it by the ratio. -/
theorem accumulator_signed_overflow :
    accAdd 0 2147483648 = -2147483648
    ∧ accAdd 0 2147483648 < 0
    ∧ (mptcp_cmtrpv2_slow_start tpC10 metaC10 [] 1 0 0).increase = 4294967295
    ∧ (mptcp_cmtrpv2_slow_start tpC10 metaC10 [] 1 0 0).snd_buffer = -2
    ∧ (mptcp_cmtrpv2_slow_start tpC10 metaC10 [] 1 0 0).snd_buffer < 0 := by
  refine ⟨by decide, by decide, by decide, by decide, by decide⟩

lemma ite_lt_max (a b : Nat) : (if a < b then b else a) = max a b := by
  split_ifs <;> omega

/-- Claim C3: on a multipath subflow with cwnd ≥ 1 (and machine values in
range), the loss-response computation returns cwnd - decrease when that
is ≥ 1 and 1 otherwise, with decrease the maximum of
ceil(((total_bandwidth * srtt) >> SCALE) / 2) and ceil(cwnd / 2); the
result always satisfies 1 ≤ new_ssthresh ≤ cwnd.  The embedded function
is pure: it writes no subflow or connection state. -/
theorem calc_ssthresh_formula_and_bounds (tp : TcpSock) (subs : List TcpSock)
    (h1 : 1 ≤ tp.snd_cwnd) (h2 : tp.snd_cwnd + 1 < U32)
    (h3 : total_bw subs * tp.srtt_us < U64) :
    (mptcp_cmtrpv2_calc_ssthresh tp subs
      = if 1 ≤ tp.snd_cwnd -
              max ((((total_bw subs * tp.srtt_us) >>> rpv2_scale) + 1) / 2)
                  ((tp.snd_cwnd + 1) / 2)
        then tp.snd_cwnd -
              max ((((total_bw subs * tp.srtt_us) >>> rpv2_scale) + 1) / 2)
                  ((tp.snd_cwnd + 1) / 2)
        else 1)
    ∧ 1 ≤ mptcp_cmtrpv2_calc_ssthresh tp subs
    ∧ mptcp_cmtrpv2_calc_ssthresh tp subs ≤ tp.snd_cwnd := by
  have h64 : U64 = 18446744073709551616 := rfl
  have hs : (total_bw subs * tp.srtt_us) >>> rpv2_scale < U32 :=
    shiftRight_scale_lt h3
  have h32 : U32 = 4294967296 := rfl
  have hlt : (total_bw subs * tp.srtt_us) >>> rpv2_scale + 1 < U64 := by omega
  have heq : mptcp_cmtrpv2_calc_ssthresh tp subs
      = if (max ((((total_bw subs * tp.srtt_us) >>> rpv2_scale) + 1) / 2)
              ((tp.snd_cwnd + 1) / 2)) < tp.snd_cwnd
        then tp.snd_cwnd -
             max ((((total_bw subs * tp.srtt_us) >>> rpv2_scale) + 1) / 2)
                 ((tp.snd_cwnd + 1) / 2)
        else 1 := by
    simp only [mptcp_cmtrpv2_calc_ssthresh, Nat.mod_eq_of_lt h3,
      Nat.mod_eq_of_lt h2, Nat.mod_eq_of_lt hlt, ite_lt_max]
  rw [heq]
  set m := max ((((total_bw subs * tp.srtt_us) >>> rpv2_scale) + 1) / 2)
      ((tp.snd_cwnd + 1) / 2) with hm
  refine ⟨?_, ?_, ?_⟩ <;> split_ifs <;> omega

/-- Subflow for the C3 witness. -/
def tpC3 : TcpSock := ⟨10, 5, 2, 100, 0, 0, 100, true⟩

/-- Witness for C3 at a concrete subflow: cwnd 10, one eligible subflow,
the hypotheses hold and the formula and bounds follow. -/
theorem calc_ssthresh_formula_and_bounds_witness :
    (mptcp_cmtrpv2_calc_ssthresh tpC3 [tpC3]
      = if 1 ≤ tpC3.snd_cwnd -
              max ((((total_bw [tpC3] * tpC3.srtt_us) >>> rpv2_scale) + 1) / 2)
                  ((tpC3.snd_cwnd + 1) / 2)
        then tpC3.snd_cwnd -
              max ((((total_bw [tpC3] * tpC3.srtt_us) >>> rpv2_scale) + 1) / 2)
                  ((tpC3.snd_cwnd + 1) / 2)
        else 1)
    ∧ 1 ≤ mptcp_cmtrpv2_calc_ssthresh tpC3 [tpC3]
    ∧ mptcp_cmtrpv2_calc_ssthresh tpC3 [tpC3] ≤ tpC3.snd_cwnd :=
  calc_ssthresh_formula_and_bounds tpC3 [tpC3] (by decide) (by decide)
    (by decide)

/-- Claim C6: whenever the ssthresh operation runs on a multipath subflow
whose sacked_out is at least dup_acks_rtx, the subflow cwnd is set to
exactly the newly computed ssthresh before the operation returns, for
every subflow state (no slow-start or congestion-avoidance condition is
involved). -/
theorem ssthresh_snaps_cwnd_on_dup_acks (tp : TcpSock) (subs : List TcpSock)
    (h : dup_acks_rtx ≤ tp.sacked_out) :
    (mptcp_cmtrpv2_ssthresh true tp subs).2.snd_cwnd
        = (mptcp_cmtrpv2_ssthresh true tp subs).1
    ∧ (mptcp_cmtrpv2_ssthresh true tp subs).1
        = mptcp_cmtrpv2_calc_ssthresh tp subs
    ∧ (mptcp_cmtrpv2_ssthresh true tp subs).2
        = { tp with snd_cwnd := mptcp_cmtrpv2_calc_ssthresh tp subs } := by
  simp [mptcp_cmtrpv2_ssthresh, mptcp_cmtrpv2_fast_rtx, h]

/-- Subflow for the C6 witness (spec scenario C): sacked_out 3, computed
ssthresh 7, post-call cwnd 7. -/
def tpC6 : TcpSock := ⟨15, 10, 1, 1000, 3, 0, 100, true⟩

/-- Witness for C6 at spec scenario C: sacked_out 3 meets the threshold
and the call snaps cwnd to the computed ssthresh. -/
theorem ssthresh_snaps_cwnd_on_dup_acks_witness :
    dup_acks_rtx ≤ tpC6.sacked_out
    ∧ ((mptcp_cmtrpv2_ssthresh true tpC6 [tpC6]).2.snd_cwnd
          = (mptcp_cmtrpv2_ssthresh true tpC6 [tpC6]).1
       ∧ (mptcp_cmtrpv2_ssthresh true tpC6 [tpC6]).1
          = mptcp_cmtrpv2_calc_ssthresh tpC6 [tpC6]
       ∧ (mptcp_cmtrpv2_ssthresh true tpC6 [tpC6]).2
          = { tpC6 with snd_cwnd := mptcp_cmtrpv2_calc_ssthresh tpC6 [tpC6] }) :=
  ⟨by decide, ssthresh_snaps_cwnd_on_dup_acks tpC6 [tpC6] (by decide)⟩

/-- Claim C2: for every growth call with nonzero reward factor F (slow
start: F = min(acked * mss, mss) on the meta socket; congestion
avoidance: F = mss on the subflow itself), the stored increase ratio
equals ceil(cwnd * F / denominator) by round-up division with
denominator = (srtt * total_bandwidth) >> SCALE (or 1 if that is 0),
where cwnd and srtt are those of the socket the calculator is invoked
on; and the value is freshly computed on each call, independent of any
previously stored ratio.  The slow-start conjunct holds for every
subflow state (no congestion-avoidance condition); the dispatcher-level
congestion-avoidance conjunct is conditioned on the
congestion-avoidance state cwnd > ssthresh, the only state in which
that call reaches the calculator with F = mss. -/
theorem growth_calls_store_fresh_ceil_increase (tp meta : TcpSock)
    (subs : List TcpSock) (acked prior prior2 : Nat) (buf : Int)
    (hAF : acked * tp.mss_cache < U32)
    (hF : min (acked * tp.mss_cache) tp.mss_cache ≠ 0)
    (hM : meta.snd_cwnd * min (acked * tp.mss_cache) tp.mss_cache < U32)
    (hSm : meta.srtt_us * total_bw subs < U64)
    (hmss : tp.mss_cache ≠ 0)
    (hC : tp.snd_cwnd * tp.mss_cache < U32)
    (hSs : tp.srtt_us * total_bw subs < U64) :
    ((mptcp_cmtrpv2_slow_start tp meta subs acked prior buf).increase
        = increaseSpec meta subs (min (acked * tp.mss_cache) tp.mss_cache)
      ∧ (mptcp_cmtrpv2_slow_start tp meta subs acked prior buf).increase
        = (mptcp_cmtrpv2_slow_start tp meta subs acked prior2 buf).increase)
    ∧ (tp.snd_ssthresh < tp.snd_cwnd →
        (mptcp_cmtrpv2_cong_avoid true true tp meta subs acked prior
            buf).increase
          = increaseSpec tp subs tp.mss_cache
        ∧ (mptcp_cmtrpv2_cong_avoid true true tp meta subs acked prior
            buf).increase
          = (mptcp_cmtrpv2_cong_avoid true true tp meta subs acked prior2
              buf).increase) := by
  have hmod : (acked * tp.mss_cache) % U32 = acked * tp.mss_cache :=
    Nat.mod_eq_of_lt hAF
  have hss1 : ∀ p, (mptcp_cmtrpv2_slow_start tp meta subs acked p buf).increase
      = increaseSpec meta subs (min (acked * tp.mss_cache) tp.mss_cache) := by
    intro p
    rw [slow_start_increase_eq, hmod, calc_increase_eq meta subs _ p hF hM hSm]
  refine ⟨⟨hss1 prior, (hss1 prior).trans (hss1 prior2).symm⟩, ?_⟩
  intro hstate
  have hca1 : ∀ p,
      (mptcp_cmtrpv2_cong_avoid true true tp meta subs acked p buf).increase
        = increaseSpec tp subs tp.mss_cache := by
    intro p
    rw [cong_avoid_increase_eq tp meta subs acked p buf hstate,
      calc_increase_eq tp subs _ p hmss hC hSs]
  exact ⟨hca1 prior, (hca1 prior).trans (hca1 prior2).symm⟩

/-- Subflow in congestion-avoidance state (ssthresh 5 < cwnd 20) for the
C2 witness. -/
def tpC2 : TcpSock := ⟨20, 5, 1, 100, 0, 0, 100, true⟩

/-- Subflow in slow-start state (cwnd 2 ≤ ssthresh 10) for the C2
witness. -/
def tpC2ss : TcpSock := ⟨2, 10, 1, 100, 0, 0, 100, true⟩

/-- Meta socket for the C2 witness. -/
def metaC2 : TcpSock := ⟨3, 5, 1, 50, 0, 0, 100, true⟩

/-- Witness for C2, with two different prior ratio values 0 and 9 to
exhibit independence from stale state: the slow-start conjunct
instantiated on a subflow genuinely in slow-start state (cwnd 2 ≤
ssthresh 10), and the congestion-avoidance conjunct on a subflow in
congestion-avoidance state (ssthresh 5 < cwnd 20). -/
theorem growth_calls_store_fresh_ceil_increase_witness :
    ((mptcp_cmtrpv2_slow_start tpC2ss metaC2 [tpC2ss] 1 0 0).increase
        = increaseSpec metaC2 [tpC2ss]
            (min (1 * tpC2ss.mss_cache) tpC2ss.mss_cache)
      ∧ (mptcp_cmtrpv2_slow_start tpC2ss metaC2 [tpC2ss] 1 0 0).increase
        = (mptcp_cmtrpv2_slow_start tpC2ss metaC2 [tpC2ss] 1 9 0).increase)
    ∧ ((mptcp_cmtrpv2_cong_avoid true true tpC2 metaC2 [tpC2] 1 0 0).increase
        = increaseSpec tpC2 [tpC2] tpC2.mss_cache
      ∧ (mptcp_cmtrpv2_cong_avoid true true tpC2 metaC2 [tpC2] 1 0 0).increase
        = (mptcp_cmtrpv2_cong_avoid true true tpC2 metaC2 [tpC2] 1 9
            0).increase) :=
  ⟨(growth_calls_store_fresh_ceil_increase tpC2ss metaC2 [tpC2ss] 1 0 9 0
      (by decide) (by decide) (by decide) (by decide) (by decide) (by decide)
      (by decide)).1,
   (growth_calls_store_fresh_ceil_increase tpC2 metaC2 [tpC2] 1 0 9 0
      (by decide) (by decide) (by decide) (by decide) (by decide) (by decide)
      (by decide)).2 (by decide)⟩

/-- Claim C7: in every slow-start call, with the freshly stored increase
ratio I added to a non-negative in-range accumulator b: if b + I reaches
one mss, cwnd is incremented by exactly one and exactly one mss is
subtracted from the accumulator (excess carries forward); otherwise cwnd
is unchanged and the accumulator holds b + I.  In particular the spec
scenario b = mss - 1, I = 5, mss = 1460 leaves accumulator 4 and one
cwnd increment (see the witness). -/
theorem slow_start_single_increment_carry (tp meta : TcpSock)
    (subs : List TcpSock) (acked prior b I : Nat)
    (hI : mptcp_cmtrpv2_calc_increase meta subs
            (min ((acked * tp.mss_cache) % U32) tp.mss_cache) prior = I)
    (hcw : tp.snd_cwnd + 1 < U32)
    (hr : b + I < 2147483648) :
    ((mptcp_cmtrpv2_slow_start tp meta subs acked prior (b : Int)).increase
        = I)
    ∧ (tp.mss_cache ≤ b + I →
        (mptcp_cmtrpv2_slow_start tp meta subs acked prior
            (b : Int)).tp.snd_cwnd = tp.snd_cwnd + 1
        ∧ (mptcp_cmtrpv2_slow_start tp meta subs acked prior
            (b : Int)).snd_buffer = ((b + I - tp.mss_cache : Nat) : Int))
    ∧ (b + I < tp.mss_cache →
        (mptcp_cmtrpv2_slow_start tp meta subs acked prior
            (b : Int)).tp.snd_cwnd = tp.snd_cwnd
        ∧ (mptcp_cmtrpv2_slow_start tp meta subs acked prior
            (b : Int)).snd_buffer = ((b + I : Nat) : Int)) := by
  subst hI
  have hinc := slow_start_increase_eq tp meta subs acked prior (b : Int)
  have hbufN : u32ofInt (accAdd (b : Int)
      (mptcp_cmtrpv2_calc_increase meta subs
        (min ((acked * tp.mss_cache) % U32) tp.mss_cache) prior))
      = b + mptcp_cmtrpv2_calc_increase meta subs
          (min ((acked * tp.mss_cache) % U32) tp.mss_cache) prior :=
    u32ofInt_accAdd_natCast _ _ hr
  refine ⟨hinc, ?_, ?_⟩
  · intro hge
    have hc : tp.mss_cache ≤ u32ofInt (accAdd (b : Int)
        (mptcp_cmtrpv2_calc_increase meta subs
          (min ((acked * tp.mss_cache) % U32) tp.mss_cache) prior)) := by
      rw [hbufN]; exact hge
    constructor
    · simp only [mptcp_cmtrpv2_slow_start, if_pos hc]
      exact Nat.mod_eq_of_lt hcw
    · simp only [mptcp_cmtrpv2_slow_start, if_pos hc]
      rw [hbufN]
      exact s32_eq_of_lt _ (by omega)
  · intro hlt
    have hc : ¬ tp.mss_cache ≤ u32ofInt (accAdd (b : Int)
        (mptcp_cmtrpv2_calc_increase meta subs
          (min ((acked * tp.mss_cache) % U32) tp.mss_cache) prior)) := by
      rw [hbufN]; omega
    constructor
    · simp only [mptcp_cmtrpv2_slow_start, if_neg hc]
    · simp only [mptcp_cmtrpv2_slow_start, if_neg hc]
      rw [hbufN]
      exact s32_eq_of_lt _ (by omega)

/-- Subflow for the C7 witness (spec scenario B): mss 1460. -/
def tpC7 : TcpSock := ⟨10, 20, 3, 1460, 0, 0, 100, true⟩

/-- Meta socket for the C7 witness, chosen so the computed increase ratio
is exactly 5. -/
def metaC7 : TcpSock := ⟨5, 20, 1, 100, 0, 0, 100, true⟩

/-- Second subflow for the C7 witness, fixing total bandwidth so the
denominator is 1460. -/
def subC7 : TcpSock := ⟨1460, 20, 1, 5, 0, 0, 100, true⟩

/-- Witness for C7 at spec scenario B: accumulator starts at mss - 1 =
1459, the computed increase is 5, and the call leaves accumulator 4 with
exactly one cwnd increment. -/
theorem slow_start_single_increment_carry_witness :
    ((mptcp_cmtrpv2_slow_start tpC7 metaC7 [subC7] 1 0
        ((1459 : Nat) : Int)).increase = 5)
    ∧ (tpC7.mss_cache ≤ 1459 + 5 →
        (mptcp_cmtrpv2_slow_start tpC7 metaC7 [subC7] 1 0
            ((1459 : Nat) : Int)).tp.snd_cwnd = tpC7.snd_cwnd + 1
        ∧ (mptcp_cmtrpv2_slow_start tpC7 metaC7 [subC7] 1 0
            ((1459 : Nat) : Int)).snd_buffer
            = ((1459 + 5 - tpC7.mss_cache : Nat) : Int))
    ∧ (1459 + 5 < tpC7.mss_cache →
        (mptcp_cmtrpv2_slow_start tpC7 metaC7 [subC7] 1 0
            ((1459 : Nat) : Int)).tp.snd_cwnd = tpC7.snd_cwnd
        ∧ (mptcp_cmtrpv2_slow_start tpC7 metaC7 [subC7] 1 0
            ((1459 : Nat) : Int)).snd_buffer = ((1459 + 5 : Nat) : Int)) :=
  slow_start_single_increment_carry tpC7 metaC7 [subC7] 1 0 1459 5
    (by decide) (by decide) (by decide)

/-- Claim C8 (amended): for every subflow whose cwnd is at least 1 and
below the top of the u32 range (so that snd_cwnd++ cannot wrap), cwnd is
still at least 1 after any multipath growth call, slow start or
congestion avoidance, for either value of the cwnd-limited flag. -/
theorem growth_preserves_cwnd_floor (tp meta : TcpSock) (subs : List TcpSock)
    (acked prior : Nat) (buf : Int) (limited : Bool)
    (h1 : 1 ≤ tp.snd_cwnd) (h2 : tp.snd_cwnd + 1 < U32) :
    1 ≤ (mptcp_cmtrpv2_slow_start tp meta subs acked prior buf).tp.snd_cwnd
    ∧ 1 ≤ (mptcp_cmtrpv2_cong_avoid true limited tp meta subs acked prior
            buf).tp.snd_cwnd := by
  have hmodcw : (tp.snd_cwnd + 1) % U32 = tp.snd_cwnd + 1 :=
    Nat.mod_eq_of_lt h2
  have hss : 1 ≤ (mptcp_cmtrpv2_slow_start tp meta subs acked prior
      buf).tp.snd_cwnd := by
    simp only [mptcp_cmtrpv2_slow_start]
    split
    · show 1 ≤ (tp.snd_cwnd + 1) % U32
      omega
    · show 1 ≤ tp.snd_cwnd
      exact h1
  refine ⟨hss, ?_⟩
  cases limited with
  | false =>
    show 1 ≤ tp.snd_cwnd
    exact h1
  | true =>
    by_cases hst : tp.snd_cwnd ≤ tp.snd_ssthresh
    · have hred : mptcp_cmtrpv2_cong_avoid true true tp meta subs acked prior
          buf
          = ⟨(mptcp_cmtrpv2_slow_start tp meta subs acked prior buf).tp,
             (mptcp_cmtrpv2_slow_start tp meta subs acked prior buf).increase,
             (mptcp_cmtrpv2_slow_start tp meta subs acked prior
               buf).snd_buffer⟩ := by
        simp [mptcp_cmtrpv2_cong_avoid, hst]
      rw [hred]
      exact hss
    · simp only [mptcp_cmtrpv2_cong_avoid, Bool.not_true, Bool.false_eq_true,
        if_false, if_neg hst]
      split_ifs <;> simp <;> omega

/-- Witness for the amended C8 theorem at a concrete in-range subflow. -/
theorem growth_preserves_cwnd_floor_witness :
    1 ≤ (mptcp_cmtrpv2_slow_start tpC5 tpC5 [tpC5] 1 0 0).tp.snd_cwnd
    ∧ 1 ≤ (mptcp_cmtrpv2_cong_avoid true true tpC5 tpC5 [tpC5] 1 0
            0).tp.snd_cwnd :=
  growth_preserves_cwnd_floor tpC5 tpC5 [tpC5] 1 0 0 true (by decide)
    (by decide)

/-- Claim C9: a multipath congestion-avoidance call in the
congestion-avoidance state with snd_cwnd_cnt ≥ cwnd, an updated
accumulator of at least one mss, and cwnd already at or above the window
clamp, still subtracts one mss from the accumulator and resets
snd_cwnd_cnt to 0 while leaving cwnd unchanged. -/
theorem cong_avoid_at_clamp_consumes_credit (tp meta : TcpSock)
    (subs : List TcpSock) (acked prior b : Nat)
    (hstate : tp.snd_ssthresh < tp.snd_cwnd)
    (hcnt : tp.snd_cwnd ≤ tp.snd_cwnd_cnt)
    (hclamp : tp.snd_cwnd_clamp ≤ tp.snd_cwnd)
    (hr : b + mptcp_cmtrpv2_calc_increase tp subs tp.mss_cache prior
            < 2147483648)
    (hfull : tp.mss_cache
        ≤ b + mptcp_cmtrpv2_calc_increase tp subs tp.mss_cache prior) :
    (mptcp_cmtrpv2_cong_avoid true true tp meta subs acked prior
        (b : Int)).tp.snd_cwnd = tp.snd_cwnd
    ∧ (mptcp_cmtrpv2_cong_avoid true true tp meta subs acked prior
        (b : Int)).tp.snd_cwnd_cnt = 0
    ∧ (mptcp_cmtrpv2_cong_avoid true true tp meta subs acked prior
        (b : Int)).snd_buffer
        = ((b + mptcp_cmtrpv2_calc_increase tp subs tp.mss_cache prior
              - tp.mss_cache : Nat) : Int) := by
  have hbufN : u32ofInt (accAdd (b : Int)
      (mptcp_cmtrpv2_calc_increase tp subs tp.mss_cache prior))
      = b + mptcp_cmtrpv2_calc_increase tp subs tp.mss_cache prior :=
    u32ofInt_accAdd_natCast _ _ hr
  have hcond : tp.mss_cache ≤ u32ofInt (accAdd (b : Int)
      (mptcp_cmtrpv2_calc_increase tp subs tp.mss_cache prior)) := by
    rw [hbufN]; exact hfull
  have hncl : ¬ (tp.snd_cwnd < tp.snd_cwnd_clamp) := Nat.not_lt.mpr hclamp
  have hnst : ¬ (tp.snd_cwnd ≤ tp.snd_ssthresh) := Nat.not_le.mpr hstate
  simp only [mptcp_cmtrpv2_cong_avoid, Bool.not_true, Bool.false_eq_true,
    if_false, if_neg hnst, if_pos hcnt, if_pos hcond, if_neg hncl]
  refine ⟨by trivial, by trivial, ?_⟩
  rw [hbufN]
  exact s32_eq_of_lt _ (by omega)

/-- Subflow for the C9 witness: cwnd 10 at the clamp 10, snd_cwnd_cnt
12, accumulator 50 and computed increase 100 with mss 100. -/
def tpC9 : TcpSock := ⟨10, 5, 1, 100, 0, 12, 10, true⟩

/-- Witness for C9: credit is consumed (accumulator 50 + 100 - 100 = 50,
snd_cwnd_cnt reset to 0) with cwnd left at the clamp value 10. -/
theorem cong_avoid_at_clamp_consumes_credit_witness :
    (mptcp_cmtrpv2_cong_avoid true true tpC9 tpC9 [tpC9] 1 0
        ((50 : Nat) : Int)).tp.snd_cwnd = tpC9.snd_cwnd
    ∧ (mptcp_cmtrpv2_cong_avoid true true tpC9 tpC9 [tpC9] 1 0
        ((50 : Nat) : Int)).tp.snd_cwnd_cnt = 0
    ∧ (mptcp_cmtrpv2_cong_avoid true true tpC9 tpC9 [tpC9] 1 0
        ((50 : Nat) : Int)).snd_buffer
        = ((50 + mptcp_cmtrpv2_calc_increase tpC9 [tpC9] tpC9.mss_cache 0
              - tpC9.mss_cache : Nat) : Int) :=
  cong_avoid_at_clamp_consumes_credit tpC9 tpC9 [tpC9] 1 0 50 (by decide)
    (by decide) (by decide) (by decide) (by decide)
